import Mathlib

/-! Discord channel adapter (`pkg/channels/discord.go`).

A shallow embedding of the Discord adapter: the lifecycle operations `Start` and `Stop`,
the outbound path `Send`, and the inbound event handler `handleMessage` together with its
helper `appendContent`.

Conventions of the embedding.

* Go strings are Lean `String`s; only concatenation and comparison with `""` are used.
* Go `error` values are the inductive `GoError`; a `nil` error is `none`.
* The channel is a value that is passed in and returned (explicit state passing).
* The Discord SDK is external. The result of each SDK call is an input of the operation that
  makes the call, and the calls an operation makes are part of its result.
* Logging has no effect on state or results and is left out.
-/

namespace Discord

/-! ## Errors and contexts -/

/-- Go `error` values as they are built in `discord.go`. -/
inductive GoError where
  /-- An error produced outside this file (SDK or `context` package), with its message. -/
  | external (msg : String)
  /-- The value of `fmt.Errorf(msg)` with no verb. -/
  | errorf (msg : String)
  /-- The value of `fmt.Errorf(pre + "%w", cause)`: a message with a wrapped cause. -/
  | wrapf (pre : String) (cause : GoError)
  deriving DecidableEq

/-- Message of an error, as `err.Error()` returns it. -/
def GoError.Error : GoError → String
  | .external msg => msg
  | .errorf msg => msg
  | .wrapf pre cause => pre ++ cause.Error

/-- Wrapped cause of an error, as `errors.Unwrap` returns it. -/
def GoError.Unwrap : GoError → Option GoError
  | .wrapf _ cause => some cause
  | _ => none

/-- A `context.Context` handed in by the caller; only its identity matters here. -/
inductive Context where
  | background
  | supplied (id : Nat)
  deriving DecidableEq

/-! ## Data model -/

/-- Fields of `discordgo.User` read by the adapter. -/
structure User where
  ID : String
  Username : String
  Discriminator : String
  deriving DecidableEq

/-- Fields of `discordgo.MessageAttachment` read by the adapter. -/
structure MessageAttachment where
  URL : String
  deriving DecidableEq

/-- Fields of `discordgo.MessageCreate` read by the adapter. `Author` is a pointer in Go and
may be nil; the entries of `Attachments` are dereferenced without a test and are taken to be
non-nil. -/
structure MessageCreate where
  ID : String
  ChannelID : String
  GuildID : String
  Content : String
  Author : Option User
  Attachments : List MessageAttachment
  deriving DecidableEq

/-- The part of `discordgo.Session` the adapter touches: the handlers registered with
`AddHandler` (counted) and the bot's own user id, read as `s.State.User.ID`. The handler
dereferences `s.State.User` without a test, so the session state is taken to be populated. -/
structure Session where
  handlers : Nat
  stateUserID : String
  deriving DecidableEq

/-- Fields of `bus.OutboundMessage`. -/
structure OutboundMessage where
  Channel : String
  ChatID : String
  Content : String
  deriving DecidableEq

/-- Modelled from the spec: the shared channel state `BaseChannel` (`pkg/channels/base.go`),
of which the adapter uses the name, the running flag and the allowlist. -/
structure BaseChannel where
  name : String
  running : Bool
  allowList : List String
  deriving DecidableEq

/-- The struct `DiscordChannel`: the embedded base, the session and the stored context
(`nil` is `none`). The configuration is read only by the constructor. -/
structure DiscordChannel where
  base : BaseChannel
  session : Session
  ctx : Option Context
  deriving DecidableEq

/-- Modelled from the spec: `BaseChannel.IsRunning`, the current lifecycle flag. -/
def IsRunning (c : DiscordChannel) : Bool :=
  c.base.running

/-- Modelled from the spec: `BaseChannel.setRunning`, the write accessor of the lifecycle
flag. -/
def setRunning (c : DiscordChannel) (b : Bool) : DiscordChannel :=
  { c with base := { c.base with running := b } }

/-- Modelled from the spec: `BaseChannel.IsAllowed`, true iff the allowlist is empty or
contains the sender id (exact string match). -/
def IsAllowed (c : DiscordChannel) (senderID : String) : Bool :=
  c.base.allowList.isEmpty || c.base.allowList.contains senderID

/-- The method `getContext`. -/
def getContext (c : DiscordChannel) : Context :=
  match c.ctx with
  | none => Context.background
  | some ctx => ctx

/-! ## Lifecycle -/

/-- Result of a lifecycle operation: the channel afterwards and the returned error. -/
structure LifecycleResult where
  channel : DiscordChannel
  err : Option GoError
  deriving DecidableEq

/-- The method `Start`. `openErr` is what `c.session.Open()` returns and `userRes` is what
`c.session.User("@me")` returns (consulted only when the session opened). -/
def Start (c : DiscordChannel) (ctx : Context) (openErr : Option GoError)
    (userRes : Except GoError User) : LifecycleResult :=
  let c := { c with ctx := some ctx }
  let c := { c with session := { c.session with handlers := c.session.handlers + 1 } }
  match openErr with
  | some err => ⟨c, some (GoError.wrapf "failed to open discord session: " err)⟩
  | none =>
    let c := setRunning c true
    match userRes with
    | Except.error err => ⟨c, some (GoError.wrapf "failed to get bot user: " err)⟩
    | Except.ok _ => ⟨c, none⟩

/-- The method `Stop`. `closeErr` is what `c.session.Close()` returns. -/
def Stop (c : DiscordChannel) (closeErr : Option GoError) : LifecycleResult :=
  let c := setRunning c false
  match closeErr with
  | some err => ⟨c, some (GoError.wrapf "failed to close discord session: " err)⟩
  | none => ⟨c, none⟩

/-! ## Outbound path -/

/-- A call made to the platform. -/
inductive PlatformCall where
  | ChannelMessageSend (channelID : String) (content : String)
  deriving DecidableEq

/-- The case of the `select` statement in `Send` that fires: either the goroutine delivered
the result of `ChannelMessageSend` on `done`, or `sendCtx.Done()` was closed and
`sendCtx.Err()` is the given error. Which one fires is decided by the Go scheduler and the
clock, so it is an input of the model. -/
inductive SelectCase where
  | done (err : Option GoError)
  | ctxDone (ctxErr : GoError)
  deriving DecidableEq

/-- Result of `Send`: the returned error and the platform calls that were started. -/
structure SendResult where
  err : Option GoError
  calls : List PlatformCall
  deriving DecidableEq

/-- The method `Send`. -/
def Send (c : DiscordChannel) (msg : OutboundMessage) (sel : SelectCase) : SendResult :=
  if !IsRunning c then
    ⟨some (GoError.errorf "discord bot not running"), []⟩
  else
    let channelID := msg.ChatID
    if channelID = "" then
      ⟨some (GoError.errorf "channel ID is empty"), []⟩
    else
      let message := msg.Content
      let calls := [PlatformCall.ChannelMessageSend channelID message]
      match sel with
      | SelectCase.done (some err) =>
        ⟨some (GoError.wrapf "failed to send discord message: " err), calls⟩
      | SelectCase.done none => ⟨none, calls⟩
      | SelectCase.ctxDone ctxErr =>
        ⟨some (GoError.wrapf "send message timeout: " ctxErr), calls⟩

/-! ## Inbound path -/

/-- The function `appendContent`. -/
def appendContent (content suffix : String) : String :=
  if content = "" then suffix else content ++ "\n" ++ suffix

/-- The value of `fmt.Sprintf("[attachment: %s]", url)`. -/
def attachmentPlaceholder (url : String) : String :=
  "[attachment: " ++ url ++ "]"

/-- Arguments of one call of `BaseChannel.HandleMessage`. The metadata map is listed in the
order of the map literal. -/
structure HandleMessageCall where
  senderID : String
  chatID : String
  content : String
  media : List String
  metadata : List (String × String)
  deriving DecidableEq

/-- Local variables `content` and `mediaPaths` of `handleMessage`. -/
structure LoopState where
  content : String
  mediaPaths : List String
  deriving DecidableEq

/-- One iteration of the loop over `m.Attachments`. -/
def attachmentStep (st : LoopState) (attachment : MessageAttachment) : LoopState :=
  { mediaPaths := st.mediaPaths ++ [attachment.URL]
    content := appendContent st.content (attachmentPlaceholder attachment.URL) }

/-- The method `handleMessage`; `m` is `none` for a nil event. The result is the call of
`HandleMessage` it makes, or `none` when it returns without one. -/
def handleMessage (c : DiscordChannel) (s : Session) (m : Option MessageCreate) :
    Option HandleMessageCall :=
  match m with
  | none => none
  | some m =>
    match m.Author with
    | none => none
    | some author =>
      if author.ID = s.stateUserID then none
      else if !IsAllowed c author.ID then none
      else
        let senderID := author.ID
        let senderName :=
          if author.Discriminator ≠ "" ∧ author.Discriminator ≠ "0" then
            author.Username ++ "#" ++ author.Discriminator
          else author.Username
        let st := m.Attachments.foldl attachmentStep ⟨m.Content, []⟩
        if st.content = "" ∧ st.mediaPaths.length = 0 then none
        else
          let content := if st.content = "" then "[media only]" else st.content
          let metadata : List (String × String) :=
            [("message_id", m.ID),
             ("user_id", senderID),
             ("username", author.Username),
             ("display_name", senderName),
             ("guild_id", m.GuildID),
             ("channel_id", m.ChannelID),
             ("is_dm", if m.GuildID = "" then "true" else "false")]
          some ⟨senderID, m.ChannelID, content, st.mediaPaths, metadata⟩

/-! ## Loop summary -/

/-- The text the attachment loop adds after non-empty content: for each URL in order, a
newline and the attachment placeholder of that URL. Used in the proofs only; the theorems
about forwarded content spell the text out. -/
def placeholderLines : List String → String
  | [] => ""
  | url :: rest => "\n" ++ attachmentPlaceholder url ++ placeholderLines rest

/-! ## Sample inputs -/

/-- A channel that is not running, with an empty allowlist; the bot's user id is `bot`. -/
def stoppedChannel : DiscordChannel :=
  { base := { name := "discord", running := false, allowList := [] }
    session := { handlers := 0, stateUserID := "bot" }
    ctx := some Context.background }

/-- A running channel with an empty allowlist. -/
def runningChannel : DiscordChannel :=
  { base := { name := "discord", running := true, allowList := [] }
    session := { handlers := 1, stateUserID := "bot" }
    ctx := some Context.background }

/-- A running channel whose allowlist holds the single id `u1`. -/
def restrictedChannel : DiscordChannel :=
  { base := { name := "discord", running := true, allowList := ["u1"] }
    session := { handlers := 1, stateUserID := "bot" }
    ctx := some Context.background }

/-- The author `u2`. -/
def userTwo : User :=
  { ID := "u2", Username := "ann", Discriminator := "0" }

/-- The bot itself as an author. -/
def botUser : User :=
  { ID := "bot", Username := "picoclaw", Discriminator := "0" }

/-- An event from `u2` with no text and one attachment. -/
def mediaOnlyEvent : MessageCreate :=
  { ID := "m1", ChannelID := "ch1", GuildID := "g1", Content := ""
    Author := some userTwo
    Attachments := [{ URL := "http://x/img.png" }] }

/-- An event from `u2` with the text `hi` and one attachment. -/
def textAndMediaEvent : MessageCreate :=
  { ID := "m2", ChannelID := "ch1", GuildID := "g1", Content := "hi"
    Author := some userTwo
    Attachments := [{ URL := "http://x/img.png" }] }

/-- An event from `u2` with no text and no attachment. -/
def emptyEvent : MessageCreate :=
  { ID := "m3", ChannelID := "ch1", GuildID := "g1", Content := ""
    Author := some userTwo
    Attachments := [] }

/-- An event from `u2` with the text `hello`. -/
def helloEvent : MessageCreate :=
  { ID := "m4", ChannelID := "ch1", GuildID := "g1", Content := "hello"
    Author := some userTwo
    Attachments := [] }

/-- An event authored by the bot itself. -/
def selfEvent : MessageCreate :=
  { ID := "m5", ChannelID := "ch1", GuildID := "g1", Content := "echo"
    Author := some botUser
    Attachments := [{ URL := "http://x/img.png" }] }

/-- An outbound message with an empty chat id. -/
def noDestinationMessage : OutboundMessage :=
  { Channel := "discord", ChatID := "", Content := "hi" }

/-- An outbound message addressed to chat `ch1`. -/
def replyMessage : OutboundMessage :=
  { Channel := "discord", ChatID := "ch1", Content := "hi" }

/-! ## Auxiliary lemmas -/

theorem eq_empty_of_length_eq_zero (s : String) (h : s.length = 0) : s = "" := by
  cases s with
  | mk data =>
    have hdata : data = [] := List.length_eq_zero.mp h
    subst hdata
    rfl

theorem attachmentPlaceholder_ne_empty (url : String) : attachmentPlaceholder url ≠ "" := by
  intro h
  have hlen := congrArg String.length h
  simp [attachmentPlaceholder, String.length_append] at hlen
  exact absurd hlen.2 (by decide)

theorem append_newline_ne_empty (content suffix : String) :
    content ++ "\n" ++ suffix ≠ "" := by
  intro h
  have hlen := congrArg String.length h
  simp [String.length_append] at hlen
  exact absurd hlen.1.2 (by decide)

theorem appendContent_placeholder_ne_empty (content url : String) :
    appendContent content (attachmentPlaceholder url) ≠ "" := by
  unfold appendContent
  split
  · exact attachmentPlaceholder_ne_empty url
  · exact append_newline_ne_empty _ _

/-- Running the attachment loop from non-empty content appends one placeholder line per
attachment and records every URL, both in arrival order. -/
theorem foldl_attachmentStep_of_ne_empty (atts : List MessageAttachment) :
    ∀ (content : String) (paths : List String), content ≠ "" →
      atts.foldl attachmentStep ⟨content, paths⟩ =
        ⟨content ++ placeholderLines (atts.map fun a => a.URL),
          paths ++ atts.map fun a => a.URL⟩ := by
  induction atts with
  | nil => intro content paths _; simp [placeholderLines]
  | cons a rest ih =>
    intro content paths hne
    have hstep : attachmentStep ⟨content, paths⟩ a =
        ⟨content ++ "\n" ++ attachmentPlaceholder a.URL, paths ++ [a.URL]⟩ := by
      simp [attachmentStep, appendContent, hne]
    rw [List.foldl_cons, hstep, ih _ _ (append_newline_ne_empty _ _)]
    simp [placeholderLines, String.append_assoc]

/-- The attachment loop started from empty content with at least one attachment: the first
placeholder stands alone, every later one follows on a line of its own. -/
theorem foldl_attachmentStep_of_empty (first : MessageAttachment)
    (rest : List MessageAttachment) :
    (first :: rest).foldl attachmentStep ⟨"", []⟩ =
      ⟨attachmentPlaceholder first.URL ++ placeholderLines (rest.map fun a => a.URL),
        first.URL :: rest.map fun a => a.URL⟩ := by
  have hstep : attachmentStep ⟨"", []⟩ first =
      ⟨attachmentPlaceholder first.URL, [first.URL]⟩ := by
    simp [attachmentStep, appendContent]
  rw [List.foldl_cons, hstep,
    foldl_attachmentStep_of_ne_empty rest _ _ (attachmentPlaceholder_ne_empty first.URL)]
  simp

/-- After the attachment loop the content is empty only if the event had neither text nor
attachments. -/
theorem foldl_attachmentStep_content_empty (m : MessageCreate)
    (h : (m.Attachments.foldl attachmentStep ⟨m.Content, []⟩).content = "") :
    m.Content = "" ∧ m.Attachments = [] := by
  by_cases hc : m.Content = ""
  · cases hatt : m.Attachments with
    | nil => exact ⟨hc, rfl⟩
    | cons first rest =>
      rw [hatt, hc, foldl_attachmentStep_of_empty] at h
      have hlen := congrArg String.length h
      have hne := attachmentPlaceholder_ne_empty first.URL
      simp [String.length_append] at hlen
      exact absurd (eq_empty_of_length_eq_zero _ hlen.1) hne
  · rw [foldl_attachmentStep_of_ne_empty _ _ _ hc] at h
    have hlen := congrArg String.length h
    simp [String.length_append] at hlen
    exact absurd (eq_empty_of_length_eq_zero _ hlen.1) hc

/-- Concatenating a list of strings onto an accumulator is the accumulator followed by the
concatenation of the list. -/
theorem foldl_append_eq (l : List String) :
    ∀ acc : String, l.foldl (fun r x => r ++ x) acc = acc ++ l.foldl (fun r x => r ++ x) "" := by
  induction l with
  | nil => intro acc; simp
  | cons x xs ih =>
    intro acc
    rw [List.foldl_cons, List.foldl_cons, ih (acc ++ x), ih ("" ++ x)]
    simp [String.append_assoc]

theorem join_cons_eq (x : String) (xs : List String) :
    String.join (x :: xs) = x ++ String.join xs := by
  unfold String.join
  rw [List.foldl_cons, foldl_append_eq xs ("" ++ x)]
  simp

/-- The loop summary written out: one line `[attachment: URL]` per attachment, each after a
newline, each carrying its own URL. -/
theorem placeholderLines_eq_join (atts : List MessageAttachment) :
    placeholderLines (atts.map fun a => a.URL) =
      String.join (atts.map fun a => "\n[attachment: " ++ a.URL ++ "]") := by
  induction atts with
  | nil => rfl
  | cons a rest ih =>
    have hlit : ("\n" : String) ++ "[attachment: " = "\n[attachment: " := by decide
    rw [List.map_cons, List.map_cons, join_cons_eq, ← ih]
    simp only [placeholderLines, attachmentPlaceholder, ← String.append_assoc, hlit]

/-! ## Inbound path: filters -/

/-- C9: an event whose author id equals the bot's own user id (the session state's user id)
is never forwarded, whatever the allowlist, the content and the attachments. -/
theorem handleMessage_drops_own_message (c : DiscordChannel) (s : Session)
    (m : MessageCreate) (author : User) (hauthor : m.Author = some author)
    (hself : author.ID = s.stateUserID) :
    handleMessage c s (some m) = none := by
  simp [handleMessage, hauthor, hself]

theorem handleMessage_drops_own_message_witness :
    selfEvent.Author = some botUser ∧ botUser.ID = restrictedChannel.session.stateUserID ∧
      handleMessage restrictedChannel restrictedChannel.session (some selfEvent) = none :=
  ⟨rfl, rfl,
    handleMessage_drops_own_message restrictedChannel restrictedChannel.session selfEvent
      botUser rfl rfl⟩

/-- C8: an event whose author id is rejected by the allowlist check is never forwarded,
whatever its content and attachments. -/
theorem handleMessage_drops_rejected_sender (c : DiscordChannel) (s : Session)
    (m : MessageCreate) (author : User) (hauthor : m.Author = some author)
    (hrejected : IsAllowed c author.ID = false) :
    handleMessage c s (some m) = none := by
  simp [handleMessage, hauthor, hrejected]

theorem handleMessage_drops_rejected_sender_witness :
    restrictedChannel.base.allowList = ["u1"] ∧ helloEvent.Author = some userTwo ∧
      userTwo.ID = "u2" ∧ helloEvent.Content = "hello" ∧
      IsAllowed restrictedChannel userTwo.ID = false ∧
      handleMessage restrictedChannel restrictedChannel.session (some helloEvent) = none :=
  ⟨rfl, rfl, rfl, rfl, by decide,
    handleMessage_drops_rejected_sender restrictedChannel restrictedChannel.session helloEvent
      userTwo rfl (by decide)⟩

/-! ## Inbound path: forwarded content -/

/-- What `handleMessage` does with an event that passes the self-message and allowlist
filters, in terms of the state the attachment loop ends in. -/
theorem handleMessage_of_accepted (c : DiscordChannel) (s : Session) (m : MessageCreate)
    (author : User) (hauthor : m.Author = some author) (hself : author.ID ≠ s.stateUserID)
    (hallowed : IsAllowed c author.ID = true) (st : LoopState)
    (hst : m.Attachments.foldl attachmentStep ⟨m.Content, []⟩ = st)
    (hne : st.content ≠ "") :
    ∃ call, handleMessage c s (some m) = some call ∧ call.content = st.content ∧
      call.media = st.mediaPaths := by
  simp [handleMessage, hauthor, hself, hallowed, hst, hne]

/-- C1, at the claim's own example: the event with content `""` and the single attachment
`http://x/img.png` passes both filters and is forwarded with the content
`[attachment: http://x/img.png]`, which is not the sentinel `[media only]`. -/
theorem handleMessage_media_only_not_sentinel :
    mediaOnlyEvent.Content = "" ∧
      mediaOnlyEvent.Attachments = [{ URL := "http://x/img.png" }] ∧
      mediaOnlyEvent.Author = some userTwo ∧
      userTwo.ID ≠ runningChannel.session.stateUserID ∧
      IsAllowed runningChannel userTwo.ID = true ∧
      (handleMessage runningChannel runningChannel.session (some mediaOnlyEvent)).map
        (fun call => call.content) = some "[attachment: http://x/img.png]" ∧
      (handleMessage runningChannel runningChannel.session (some mediaOnlyEvent)).map
        (fun call => call.content) ≠ some "[media only]" := by
  decide

/-- What the handler forwards for an accepted event without text whose attachments are
`first :: rest`: the line `[attachment: URL]` of the first attachment followed, for each
later attachment in arrival order, by a newline and its own line. The sentinel assignment
is therefore never reached. -/
theorem handleMessage_media_only_content (c : DiscordChannel) (s : Session)
    (m : MessageCreate) (author : User) (first : MessageAttachment)
    (rest : List MessageAttachment) (hauthor : m.Author = some author)
    (hself : author.ID ≠ s.stateUserID) (hallowed : IsAllowed c author.ID = true)
    (hcontent : m.Content = "") (hattachments : m.Attachments = first :: rest) :
    ∃ call, handleMessage c s (some m) = some call ∧
      call.content =
        "[attachment: " ++ first.URL ++ "]" ++
          String.join (rest.map fun a => "\n[attachment: " ++ a.URL ++ "]") := by
  have hst : m.Attachments.foldl attachmentStep ⟨m.Content, []⟩ =
      ⟨attachmentPlaceholder first.URL ++ placeholderLines (rest.map fun a => a.URL),
        first.URL :: rest.map fun a => a.URL⟩ := by
    rw [hattachments, hcontent, foldl_attachmentStep_of_empty]
  have hne : attachmentPlaceholder first.URL ++ placeholderLines (rest.map fun a => a.URL)
      ≠ "" := by
    intro h
    have hlen := congrArg String.length h
    simp [String.length_append] at hlen
    exact attachmentPlaceholder_ne_empty first.URL (eq_empty_of_length_eq_zero _ hlen.1)
  obtain ⟨call, hcall, hc, _⟩ :=
    handleMessage_of_accepted c s m author hauthor hself hallowed _ hst hne
  refine ⟨call, hcall, ?_⟩
  rw [hc, placeholderLines_eq_join]
  rfl

/-- C5: an event that passes the filters, with non-empty text content and attachment URLs
`u1..un`, is forwarded with the original content followed, for each URL in arrival order,
by a newline and `[attachment: ui]`. This holds for every `n`, so in particular for
`n ≥ 1`. -/
theorem handleMessage_text_and_media_content (c : DiscordChannel) (s : Session)
    (m : MessageCreate) (author : User) (hauthor : m.Author = some author)
    (hself : author.ID ≠ s.stateUserID) (hallowed : IsAllowed c author.ID = true)
    (hcontent : m.Content ≠ "") :
    ∃ call, handleMessage c s (some m) = some call ∧
      call.content =
        m.Content ++
          String.join (m.Attachments.map fun a => "\n[attachment: " ++ a.URL ++ "]") := by
  have hst := foldl_attachmentStep_of_ne_empty m.Attachments m.Content [] hcontent
  have hne : m.Content ++ placeholderLines (m.Attachments.map fun a => a.URL) ≠ "" := by
    intro h
    have hlen := congrArg String.length h
    simp [String.length_append] at hlen
    exact hcontent (eq_empty_of_length_eq_zero _ hlen.1)
  obtain ⟨call, hcall, hc, _⟩ :=
    handleMessage_of_accepted c s m author hauthor hself hallowed _ hst hne
  refine ⟨call, hcall, ?_⟩
  rw [hc, placeholderLines_eq_join]

theorem handleMessage_text_and_media_content_witness :
    textAndMediaEvent.Content = "hi" ∧
      textAndMediaEvent.Attachments = [{ URL := "http://x/img.png" }] ∧
      ∃ call, handleMessage runningChannel runningChannel.session (some textAndMediaEvent) =
          some call ∧
        call.content = "hi\n[attachment: http://x/img.png]" :=
  ⟨rfl, rfl,
    handleMessage_text_and_media_content runningChannel runningChannel.session
      textAndMediaEvent userTwo rfl (by decide) (by decide) (by decide)⟩

/-- C6: `handleMessage` forwards only non-empty content: an event with empty text content
and no attachments is dropped without a call of `HandleMessage`, and whenever a call is
made its content is not the empty string. -/
theorem handleMessage_forwards_only_nonempty (c : DiscordChannel) (s : Session)
    (m : Option MessageCreate) :
    (∀ ev, m = some ev → ev.Content = "" → ev.Attachments = [] →
        handleMessage c s m = none) ∧
      (∀ call, handleMessage c s m = some call → call.content ≠ "") := by
  constructor
  · intro ev hm hcontent hattachments
    subst hm
    cases hauthor : ev.Author with
    | none => simp [handleMessage, hauthor]
    | some author => simp [handleMessage, hauthor, hcontent, hattachments]
  · intro call hcall
    cases m with
    | none => simp [handleMessage] at hcall
    | some ev =>
      cases hauthor : ev.Author with
      | none => simp [handleMessage, hauthor] at hcall
      | some author =>
        simp only [handleMessage, hauthor] at hcall
        split_ifs at hcall <;> simp only [Option.some.injEq] at hcall <;> subst hcall
        all_goals first
          | exact (by decide : ("[media only]" : String) ≠ "")
          | assumption

theorem handleMessage_forwards_only_nonempty_witness :
    handleMessage runningChannel runningChannel.session (some emptyEvent) = none ∧
      ("[attachment: http://x/img.png]" : String) ≠ "" :=
  ⟨(handleMessage_forwards_only_nonempty runningChannel runningChannel.session
      (some emptyEvent)).1 emptyEvent rfl rfl rfl,
    (handleMessage_forwards_only_nonempty runningChannel runningChannel.session
      (some mediaOnlyEvent)).2
      { senderID := "u2", chatID := "ch1", content := "[attachment: http://x/img.png]",
        media := ["http://x/img.png"],
        metadata := [("message_id", "m1"), ("user_id", "u2"), ("username", "ann"),
          ("display_name", "ann"), ("guild_id", "g1"), ("channel_id", "ch1"),
          ("is_dm", "false")] }
      (by decide)⟩

/-! ## Lifecycle -/

/-- When `Open` fails, `Start` returns the wrapped error and leaves the running flag as it
was. -/
theorem Start_open_error (c : DiscordChannel) (ctx : Context) (err : GoError)
    (userRes : Except GoError User) :
    (Start c ctx (some err) userRes).err =
        some (GoError.wrapf "failed to open discord session: " err) ∧
      IsRunning (Start c ctx (some err) userRes).channel = IsRunning c := by
  simp [Start, IsRunning]

/-- When `Open` and the bot user lookup both succeed, `Start` returns nil and the channel is
running. -/
theorem Start_success (c : DiscordChannel) (ctx : Context) (botUser : User) :
    (Start c ctx none (Except.ok botUser)).err = none ∧
      IsRunning (Start c ctx none (Except.ok botUser)).channel = true := by
  simp [Start, IsRunning, setRunning]

/-- When `Open` succeeds and the bot user lookup fails, `Start` returns the wrapped error
and the running flag is already set. -/
theorem Start_user_error (c : DiscordChannel) (ctx : Context) (err : GoError) :
    (Start c ctx none (Except.error err)).err =
        some (GoError.wrapf "failed to get bot user: " err) ∧
      IsRunning (Start c ctx none (Except.error err)).channel = true := by
  simp [Start, IsRunning, setRunning]

/-- C2, at the failing input: on a channel that is not running, with `Open` succeeding and
the bot user lookup failing with `401: Unauthorized`, `Start` returns a non-nil error (the
lookup error, wrapped) and yet the channel reports running afterwards. -/
theorem Start_user_error_reports_running :
    IsRunning stoppedChannel = false ∧
      (Start stoppedChannel Context.background none
          (Except.error (GoError.external "401: Unauthorized"))).err =
        some (GoError.wrapf "failed to get bot user: "
          (GoError.external "401: Unauthorized")) ∧
      IsRunning (Start stoppedChannel Context.background none
          (Except.error (GoError.external "401: Unauthorized"))).channel = true := by
  decide

/-- C7: after `Stop` the running flag is false, for every channel state (running or already
stopped) and every outcome of closing the session. -/
theorem Stop_clears_running (c : DiscordChannel) (closeErr : Option GoError) :
    IsRunning (Stop c closeErr).channel = false := by
  cases closeErr <;> simp [Stop, IsRunning, setRunning]

/-! ## Outbound path -/

/-- C3: on a channel whose running flag is false, `Send` returns the error
`discord bot not running` and starts no platform call, for every outbound message. -/
theorem Send_not_running (c : DiscordChannel) (msg : OutboundMessage) (sel : SelectCase)
    (hstopped : IsRunning c = false) :
    Send c msg sel = ⟨some (GoError.errorf "discord bot not running"), []⟩ := by
  simp [Send, hstopped]

theorem Send_not_running_witness :
    IsRunning stoppedChannel = false ∧
      Send stoppedChannel replyMessage (SelectCase.done none) =
        ⟨some (GoError.errorf "discord bot not running"), []⟩ :=
  ⟨rfl, Send_not_running stoppedChannel replyMessage (SelectCase.done none) rfl⟩

/-- C4, at a channel that is not running: `Send` with an empty chat id returns the error
`discord bot not running`, which is not the error `channel ID is empty`. -/
theorem Send_empty_chat_id_not_running :
    noDestinationMessage.ChatID = "" ∧
      (Send stoppedChannel noDestinationMessage (SelectCase.done none)).err =
        some (GoError.errorf "discord bot not running") ∧
      (Send stoppedChannel noDestinationMessage (SelectCase.done none)).err ≠
        some (GoError.errorf "channel ID is empty") := by
  decide

/-- C4, as the code has it: for every channel state, `Send` with an empty chat id fails and
starts no platform call; the error is `channel ID is empty` when the channel is running and
`discord bot not running` when it is not. -/
theorem Send_empty_chat_id (c : DiscordChannel) (msg : OutboundMessage) (sel : SelectCase)
    (hempty : msg.ChatID = "") :
    (Send c msg sel).calls = [] ∧
      (Send c msg sel).err =
        some (if IsRunning c = true then GoError.errorf "channel ID is empty"
          else GoError.errorf "discord bot not running") := by
  cases hrun : IsRunning c <;> simp [Send, hrun, hempty]

theorem Send_empty_chat_id_witness :
    noDestinationMessage.ChatID = "" ∧
      (Send runningChannel noDestinationMessage (SelectCase.done none)).calls = [] ∧
      (Send runningChannel noDestinationMessage (SelectCase.done none)).err =
        some (if IsRunning runningChannel = true then GoError.errorf "channel ID is empty"
          else GoError.errorf "discord bot not running") :=
  ⟨rfl, Send_empty_chat_id runningChannel noDestinationMessage (SelectCase.done none) rfl⟩

/-- Once both guards are passed, `Send` starts exactly one platform call, and its result
follows the case of the `select` statement that fires. Which case fires is an input here. -/
theorem Send_after_guards (c : DiscordChannel) (msg : OutboundMessage)
    (hrunning : IsRunning c = true) (hchat : msg.ChatID ≠ "") :
    Send c msg (SelectCase.done none) =
        ⟨none, [PlatformCall.ChannelMessageSend msg.ChatID msg.Content]⟩ ∧
      (∀ err, Send c msg (SelectCase.done (some err)) =
        ⟨some (GoError.wrapf "failed to send discord message: " err),
          [PlatformCall.ChannelMessageSend msg.ChatID msg.Content]⟩) ∧
      (∀ ctxErr, Send c msg (SelectCase.ctxDone ctxErr) =
        ⟨some (GoError.wrapf "send message timeout: " ctxErr),
          [PlatformCall.ChannelMessageSend msg.ChatID msg.Content]⟩) := by
  simp [Send, hrunning, hchat]

end Discord
